import Mathlib

/-!
Shallow embedding of the HAINDY test-step execution engine core
(src/core/types.py, src/main.py, src/config/agent_prompts.py) in Lean 4,
with theorems settling the specification claims.

Conventions of the embedding:
* Python floats that only carry range/ordering information (offsets,
  confidences) are modelled as rationals.
* UUIDs are modelled as abstract naturals; timestamps are omitted (they
  carry no logic relevant to the claims).
* Pydantic field validation (`ge`/`le` bounds) is modelled by a smart
  constructor returning `Option`: `none` is a pydantic ValidationError.
* Components of the spec whose code is not in the repository snapshot
  (Visual Locator, Scroll Controller loop, Execution Coordinator state
  updates) are modelled from the specification text; their doc comments
  say so explicitly.
-/

namespace Haindy

/-- TestStatus enum from src/core/types.py. -/
inductive TestStatus
  | pending
  | in_progress
  | completed
  | failed
  | skipped
  | blocked
deriving DecidableEq, Repr

/-- ActionType enum from src/core/types.py (scroll variants included). -/
inductive ActionType
  | click
  | type
  | scroll
  | navigate
  | wait
  | assert
  | key_press
  | screenshot
  | scroll_to_element
  | scroll_by_pixels
  | scroll_to_top
  | scroll_to_bottom
  | scroll_horizontal
deriving DecidableEq, Repr

/-- GridCoordinate model from src/core/types.py: cell identifier,
sub-cell offsets, confidence, refinement flag. -/
structure GridCoordinate where
  cell : String
  offset_x : ℚ
  offset_y : ℚ
  confidence : ℚ
  refined : Bool
deriving DecidableEq, Repr

/-- Pydantic validation of GridCoordinate construction: offsets must lie
in [0,1] (`ge=0.0, le=1.0`) and confidence in [0,1]; any violation is a
ValidationError, modelled as `none`. -/
def mkGridCoordinate (cell : String) (offset_x offset_y confidence : ℚ)
    (refined : Bool) : Option GridCoordinate :=
  if 0 ≤ offset_x ∧ offset_x ≤ 1 ∧ 0 ≤ offset_y ∧ offset_y ≤ 1 ∧
      0 ≤ confidence ∧ confidence ≤ 1 then
    some ⟨cell, offset_x, offset_y, confidence, refined⟩
  else
    none

/-- GridCoordinate construction with only cell and confidence supplied:
the field defaults of src/core/types.py apply (offset_x = 0.5,
offset_y = 0.5, refined = False). -/
def mkGridCoordinateDefault (cell : String) (confidence : ℚ) :
    Option GridCoordinate :=
  mkGridCoordinate cell (1/2) (1/2) confidence false

/-- ScrollDirection enum from src/core/types.py. -/
inductive ScrollDirection
  | up
  | down
  | left
  | right
deriving DecidableEq, Repr

/-- VisibilityStatus enum from src/core/types.py. -/
inductive VisibilityStatus
  | fully_visible
  | partially_visible
  | not_visible
deriving DecidableEq, Repr

/-- ScrollParameters model from src/core/types.py; `max_attempts` has
field default 15. -/
structure ScrollParameters where
  direction : Option ScrollDirection
  pixels : Option Nat
  target_element : Option String
  max_attempts : Nat
deriving DecidableEq, Repr

/-- ScrollParameters built with every defaulted field left at its
default (direction=None, pixels=None, target_element=None,
max_attempts=15). -/
def mkScrollParameters : ScrollParameters :=
  { direction := none, pixels := none, target_element := none,
    max_attempts := 15 }

/-- VisibilityResult model from src/core/types.py. -/
structure VisibilityResult where
  status : VisibilityStatus
  coordinates : Option GridCoordinate
  visible_percentage : Option Nat
  suggested_direction : Option ScrollDirection
  direction_confidence : ℚ
  notes : String
deriving DecidableEq, Repr

/-- ScrollAction model from src/core/types.py (the `executed_at`
timestamp is omitted as time-valued). -/
structure ScrollAction where
  direction : ScrollDirection
  distance : Nat
  is_correction : Bool
deriving DecidableEq, Repr

/-- ScrollState model from src/core/types.py; defaults: attempts = 0,
max_attempts = 15, empty history, no last direction, flags false. -/
structure ScrollState where
  target_element : String
  attempts : Nat
  max_attempts : Nat
  scroll_history : List ScrollAction
  last_direction : Option ScrollDirection
  overshoot_detected : Bool
  element_partially_visible : Bool
  last_screenshot_hash : Option String
deriving DecidableEq, Repr

/-- ScrollState built from a target description with every other field
left at its default. -/
def mkScrollState (target : String) : ScrollState :=
  { target_element := target, attempts := 0, max_attempts := 15,
    scroll_history := [], last_direction := none,
    overshoot_detected := false, element_partially_visible := false,
    last_screenshot_hash := none }

/-- ScrollResult model from src/core/types.py (scroll_history entries
are modelled structurally rather than as JSON dictionaries). -/
structure ScrollResult where
  success : Bool
  action_type : String
  coordinates : Option GridCoordinate
  confidence : Option ℚ
  attempts : Option Nat
  total_scroll_distance : Option Nat
  error : Option String
  scroll_history : Option (List ScrollAction)
deriving DecidableEq, Repr

/-- ActionInstruction model from src/core/types.py (timeout in
milliseconds, field default 5000). -/
structure ActionInstruction where
  action_type : ActionType
  description : String
  target : Option String
  value : Option String
  expected_outcome : String
  timeout : Nat
deriving DecidableEq, Repr

/-- TestStep model from src/core/types.py; UUIDs are abstract naturals.
Defaults: dependencies = [], optional = False, max_retries = 3. -/
structure TestStep where
  step_id : Nat
  step_number : Nat
  description : String
  action_instruction : ActionInstruction
  dependencies : List Nat
  optional : Bool
  max_retries : Nat
deriving DecidableEq, Repr

/-- TestPlan model from src/core/types.py (created_at timestamp
omitted as time-valued). -/
structure TestPlan where
  plan_id : Nat
  name : String
  description : String
  requirements : String
  steps : List TestStep
  estimated_duration_seconds : Option Nat
  tags : List String
deriving DecidableEq, Repr

/-- TestState model from src/core/types.py; the three step collections
hold step UUIDs (abstract naturals).  The untyped `context` map and the
start/end timestamps are omitted: no claim concerns them. -/
structure TestState where
  test_plan : TestPlan
  current_step : Option TestStep
  completed_steps : List Nat
  failed_steps : List Nat
  skipped_steps : List Nat
  status : TestStatus
  error_count : Nat
  warning_count : Nat
deriving DecidableEq, Repr

/-- TestState at the start of a run, with the field defaults of
src/core/types.py: empty step collections, status pending, zero
counters. -/
def initialTestState (plan : TestPlan) : TestState :=
  { test_plan := plan, current_step := none, completed_steps := [],
    failed_steps := [], skipped_steps := [], status := .pending,
    error_count := 0, warning_count := 0 }

/-- A step id is terminal in a TestState when it appears in one of the
three terminal collections (blocked steps are recorded as skipped: the
spec's blocking cascade marks them "blocked, then skipped"). -/
def isTerminal (s : TestState) (id : Nat) : Prop :=
  id ∈ s.completed_steps ∨ id ∈ s.failed_steps ∨ id ∈ s.skipped_steps

instance (s : TestState) (id : Nat) : Decidable (isTerminal s id) := by
  unfold isTerminal
  infer_instance

/-- Terminal outcome of a step, as produced by the Execution
Coordinator: completed on evaluated success, failed on retry
exhaustion, skipped for the blocking cascade and optional skips. -/
inductive StepOutcome
  | completed
  | failed
  | skipped
deriving DecidableEq, Repr

/-- Modelled from the spec: the Execution Coordinator (whose code is
not in the repository snapshot; only the TestState type is) is the sole
mutator of TestState and records each step's terminal outcome exactly
once — a step that is already completed, failed or skipped is never
runnable again (§4.1) and is never re-marked.  `markOutcome` appends
the step id to the collection of its outcome only when the step is not
yet terminal. -/
def markOutcome (s : TestState) (id : Nat) (o : StepOutcome) : TestState :=
  if isTerminal s id then s
  else
    match o with
    | .completed => { s with completed_steps := s.completed_steps ++ [id] }
    | .failed => { s with failed_steps := s.failed_steps ++ [id] }
    | .skipped => { s with skipped_steps := s.skipped_steps ++ [id] }

/-- Modelled from the spec: a test run's effect on the step
collections is a sequence of terminal-outcome recordings applied by the
coordinator to the initial state. -/
def runOutcomes (s : TestState) (events : List (Nat × StepOutcome)) :
    TestState :=
  events.foldl (fun st e => markOutcome st e.1 e.2) s

/-- The three terminal collections of a TestState are pairwise
disjoint. -/
def StepSetsDisjoint (s : TestState) : Prop :=
  (∀ x ∈ s.completed_steps, x ∉ s.failed_steps) ∧
  (∀ x ∈ s.completed_steps, x ∉ s.skipped_steps) ∧
  (∀ x ∈ s.failed_steps, x ∉ s.skipped_steps)

instance (s : TestState) : Decidable (StepSetsDisjoint s) := by
  unfold StepSetsDisjoint
  infer_instance

/-- A step id lies in exactly one of the three terminal collections. -/
def InExactlyOne (s : TestState) (id : Nat) : Prop :=
  (id ∈ s.completed_steps ∧ id ∉ s.failed_steps ∧ id ∉ s.skipped_steps) ∨
  (id ∉ s.completed_steps ∧ id ∈ s.failed_steps ∧ id ∉ s.skipped_steps) ∨
  (id ∉ s.completed_steps ∧ id ∉ s.failed_steps ∧ id ∈ s.skipped_steps)

instance (s : TestState) (id : Nat) : Decidable (InExactlyOne s id) := by
  unfold InExactlyOne
  infer_instance

lemma markOutcome_disjoint (s : TestState) (id : Nat) (o : StepOutcome)
    (h : StepSetsDisjoint s) : StepSetsDisjoint (markOutcome s id o) := by
  unfold markOutcome
  split
  · exact h
  · rename_i hterm
    unfold isTerminal at hterm
    push_neg at hterm
    obtain ⟨hc, hf, hk⟩ := hterm
    obtain ⟨hcf, hck, hfk⟩ := h
    cases o
    · refine ⟨?_, ?_, hfk⟩
      · intro x hx
        rcases List.mem_append.mp hx with hx | hx
        · exact hcf x hx
        · simp only [List.mem_singleton] at hx
          subst hx
          exact hf
      · intro x hx
        rcases List.mem_append.mp hx with hx | hx
        · exact hck x hx
        · simp only [List.mem_singleton] at hx
          subst hx
          exact hk
    · refine ⟨?_, hck, ?_⟩
      · intro x hx hmem
        rcases List.mem_append.mp hmem with hm | hm
        · exact hcf x hx hm
        · simp only [List.mem_singleton] at hm
          subst hm
          exact hc hx
      · intro x hx
        rcases List.mem_append.mp hx with hx | hx
        · exact hfk x hx
        · simp only [List.mem_singleton] at hx
          subst hx
          exact hk
    · refine ⟨hcf, ?_, ?_⟩
      · intro x hx hmem
        rcases List.mem_append.mp hmem with hm | hm
        · exact hck x hx hm
        · simp only [List.mem_singleton] at hm
          subst hm
          exact hc hx
      · intro x hx hmem
        rcases List.mem_append.mp hmem with hm | hm
        · exact hfk x hx hm
        · simp only [List.mem_singleton] at hm
          subst hm
          exact hf hx

lemma runOutcomes_disjoint (events : List (Nat × StepOutcome))
    (s : TestState) (h : StepSetsDisjoint s) :
    StepSetsDisjoint (runOutcomes s events) := by
  induction events generalizing s with
  | nil => exact h
  | cons e rest ih =>
    exact ih (markOutcome s e.1 e.2) (markOutcome_disjoint s e.1 e.2 h)

lemma initial_disjoint (plan : TestPlan) :
    StepSetsDisjoint (initialTestState plan) := by
  refine ⟨?_, ?_, ?_⟩ <;> intro x hx <;> simp [initialTestState] at hx

lemma disjoint_terminal_exactly_one (s : TestState)
    (h : StepSetsDisjoint s) (id : Nat) (hterm : isTerminal s id) :
    InExactlyOne s id := by
  obtain ⟨hcf, hck, hfk⟩ := h
  rcases hterm with hc | hf | hk
  · exact Or.inl ⟨hc, hcf id hc, hck id hc⟩
  · refine Or.inr (Or.inl ⟨fun hc => hcf id hc hf, hf, hfk id hf⟩)
  · refine Or.inr (Or.inr ⟨fun hc => hck id hc hk, fun hf => hfk id hf hk, hk⟩)

/-- Default confidence threshold, from the default argument
`confidence_threshold: float = 0.8` of
PromptTemplates.action_identification in src/config/agent_prompts.py. -/
def default_confidence_threshold : ℚ := 8/10

/-- One reply of the visual-reasoning oracle to a locate query: either
a candidate coordinate, or no/ambiguous candidate. -/
inductive OracleReply
  | found (coord : GridCoordinate)
  | notFound
deriving DecidableEq, Repr

/-- Locator failure taxonomy entry used by locate. -/
inductive LocatorFailure
  | targetNotFound
deriving DecidableEq, Repr

/-- Modelled from the spec: the Visual Locator's `locate` (§4.2), whose
code is not in the repository snapshot (only its prompt template and
the GridCoordinate type are).  The oracle is invoked once for an
initial candidate; if the oracle reports no/ambiguous candidate the
call fails with TargetNotFound.  If the initial confidence is below the
threshold and the result is not already marked refined, exactly one
refinement request is issued (`refineOracle`, the oracle re-examining
the region around the candidate), the refined result is merged, and
`refined` is set true regardless of whether confidence improved.
Otherwise the initial result is returned unchanged.  The second
component counts the refinement requests issued by the call. -/
def locate (initialReply : OracleReply)
    (refineOracle : GridCoordinate → GridCoordinate) (threshold : ℚ) :
    Except LocatorFailure GridCoordinate × Nat :=
  match initialReply with
  | .notFound => (.error .targetNotFound, 0)
  | .found c =>
    if c.confidence < threshold ∧ c.refined = false then
      (.ok { refineOracle c with refined := true }, 1)
    else
      (.ok c, 0)

/-- Opposite scroll direction, used when correcting an overshoot. -/
def ScrollDirection.opposite : ScrollDirection → ScrollDirection
  | .up => .down
  | .down => .up
  | .left => .right
  | .right => .left

/-- Constants the spec names but leaves unspecified: the
direction-confidence threshold of §4.3 step 3 and the fixed default
scroll distance of §4.3 step 5.  They are parameters of the model. -/
structure ScrollConfig where
  direction_threshold : ℚ
  default_distance : Nat
deriving DecidableEq, Repr

/-- Modelled from the spec: direction choice (§4.3 step 3) — use the
oracle's suggested direction when its direction-confidence exceeds the
threshold, otherwise reuse the last committed direction, otherwise
default downward. -/
def chooseDirection (cfg : ScrollConfig) (st : ScrollState)
    (v : VisibilityResult) : ScrollDirection :=
  match v.suggested_direction with
  | some d =>
    if cfg.direction_threshold < v.direction_confidence then d
    else st.last_direction.getD .down
  | none => st.last_direction.getD .down

/-- Modelled from the spec: overshoot detection (§4.3 step 4) — the
target was partially visible on the previous attempt and is now not
visible, or the visible percentage decreased after the last scroll. -/
def overshootDetected (prev : Option VisibilityResult)
    (cur : VisibilityResult) : Bool :=
  match prev with
  | none => false
  | some p =>
    (decide (p.status = .partially_visible) &&
      decide (cur.status = .not_visible)) ||
    (match p.visible_percentage, cur.visible_percentage with
     | some a, some b => decide (b < a)
     | _, _ => false)

/-- Modelled from the spec: one scroll attempt (§4.3 steps 3–5) — pick
a direction (flipped and marked as a correction on overshoot), scroll
by the requested pixel count or the fixed default, append the
ScrollAction to the history and increment the attempt counter. -/
def scrollAttempt (cfg : ScrollConfig) (params : ScrollParameters)
    (prev : Option VisibilityResult) (v : VisibilityResult)
    (st : ScrollState) : ScrollState :=
  let overshoot := overshootDetected prev v
  let base := chooseDirection cfg st v
  let dir := if overshoot then base.opposite else base
  let act : ScrollAction :=
    ⟨dir, params.pixels.getD cfg.default_distance, overshoot⟩
  { st with
    attempts := st.attempts + 1,
    scroll_history := st.scroll_history ++ [act],
    last_direction := some dir,
    overshoot_detected := st.overshoot_detected || overshoot,
    element_partially_visible := decide (v.status = .partially_visible) }

/-- Total distance scrolled, summed over a scroll history. -/
def totalScrollDistance (h : List ScrollAction) : Nat :=
  (h.map (fun a => a.distance)).sum

/-- ScrollResult emitted on the Found transition (§4.3 step 2). -/
def foundScrollResult (st : ScrollState) (v : VisibilityResult) :
    ScrollResult :=
  { success := true, action_type := "scroll_to_element",
    coordinates := v.coordinates,
    confidence := v.coordinates.map (fun c => c.confidence),
    attempts := some st.attempts,
    total_scroll_distance := some (totalScrollDistance st.scroll_history),
    error := none, scroll_history := some st.scroll_history }

/-- ScrollResult emitted on the Exhausted transition (§4.3 step 6),
reporting the total distance scrolled and the full action history. -/
def exhaustedScrollResult (st : ScrollState) : ScrollResult :=
  { success := false, action_type := "scroll_to_element",
    coordinates := none, confidence := none,
    attempts := some st.attempts,
    total_scroll_distance := some (totalScrollDistance st.scroll_history),
    error := some "ScrollExhausted", scroll_history := some st.scroll_history }

/-- Modelled from the spec: the Scroll Controller state machine loop
(§4.3), whose code is not in the repository snapshot (only the
ScrollState/ScrollResult types are).  `oracle n` is the visual-analysis
collaborator's visibility verdict when n scroll actions have been
taken; `fuel` is the number of scroll attempts still allowed
(max_attempts minus the attempt counter); `prev` is the previous
attempt's visibility, for overshoot detection.  Each attempt queries
visibility, emits Found when the target is fully visible, otherwise
scrolls; when the attempt counter reaches max_attempts without Found,
the loop emits Exhausted. -/
def scrollLoop (cfg : ScrollConfig) (params : ScrollParameters)
    (oracle : Nat → VisibilityResult) :
    Nat → Option VisibilityResult → ScrollState → ScrollResult
  | 0, _, st => exhaustedScrollResult st
  | fuel + 1, prev, st =>
    let v := oracle st.attempts
    if v.status = .fully_visible then
      foundScrollResult st v
    else
      let st2 := scrollAttempt cfg params prev v st
      match fuel with
      | 0 => exhaustedScrollResult st2
      | _ + 1 => scrollLoop cfg params oracle fuel (some v) st2

/-- Modelled from the spec: a scroll-to-element request runs the loop
from a fresh ScrollState with the request's max_attempts as the
attempt budget. -/
def scroll_to_element (cfg : ScrollConfig)
    (oracle : Nat → VisibilityResult) (params : ScrollParameters)
    (target : String) : ScrollResult :=
  scrollLoop cfg params oracle params.max_attempts none (mkScrollState target)

lemma scrollAttempt_history_length (cfg : ScrollConfig)
    (params : ScrollParameters) (prev : Option VisibilityResult)
    (v : VisibilityResult) (st : ScrollState) :
    (scrollAttempt cfg params prev v st).scroll_history.length =
      st.scroll_history.length + 1 ∧
    (scrollAttempt cfg params prev v st).attempts = st.attempts + 1 := by
  constructor
  · simp [scrollAttempt]
  · rfl

lemma scrollLoop_succ_eq (cfg : ScrollConfig) (params : ScrollParameters)
    (oracle : Nat → VisibilityResult) (fuel : Nat)
    (prev : Option VisibilityResult) (st : ScrollState) :
    scrollLoop cfg params oracle (fuel + 1) prev st =
      if (oracle st.attempts).status = .fully_visible then
        foundScrollResult st (oracle st.attempts)
      else
        match fuel with
        | 0 => exhaustedScrollResult
            (scrollAttempt cfg params prev (oracle st.attempts) st)
        | _ + 1 => scrollLoop cfg params oracle fuel
            (some (oracle st.attempts))
            (scrollAttempt cfg params prev (oracle st.attempts) st) := rfl

lemma scrollLoop_attempts_spec (cfg : ScrollConfig)
    (params : ScrollParameters) (oracle : Nat → VisibilityResult) :
    ∀ (fuel : Nat) (prev : Option VisibilityResult) (st : ScrollState),
    st.scroll_history.length = st.attempts →
    ∃ n h,
      (scrollLoop cfg params oracle fuel prev st).attempts = some n ∧
      (scrollLoop cfg params oracle fuel prev st).scroll_history = some h ∧
      n = h.length ∧ n ≤ st.attempts + fuel := by
  intro fuel
  induction fuel with
  | zero =>
    intro prev st hlen
    exact ⟨st.attempts, st.scroll_history, rfl, rfl, hlen.symm, Nat.le_refl _⟩
  | succ fuel ih =>
    intro prev st hlen
    rw [scrollLoop_succ_eq]
    split
    · exact ⟨st.attempts, st.scroll_history, rfl, rfl, hlen.symm,
        Nat.le_add_right _ _⟩
    · obtain ⟨h1, h2⟩ := scrollAttempt_history_length cfg params prev
        (oracle st.attempts) st
      have hlen2 : (scrollAttempt cfg params prev (oracle st.attempts)
          st).scroll_history.length =
          (scrollAttempt cfg params prev (oracle st.attempts) st).attempts := by
        rw [h1, h2, hlen]
      match fuel with
      | 0 =>
        refine ⟨(scrollAttempt cfg params prev (oracle st.attempts) st).attempts,
          (scrollAttempt cfg params prev (oracle st.attempts) st).scroll_history,
          rfl, rfl, hlen2.symm, ?_⟩
        rw [h2]
      | fuel' + 1 =>
        obtain ⟨n, hh, e1, e2, e3, e4⟩ := ih (some (oracle st.attempts))
          (scrollAttempt cfg params prev (oracle st.attempts) st) hlen2
        refine ⟨n, hh, e1, e2, e3, ?_⟩
        rw [h2] at e4
        omega

/-- Exception classes that run_test's handlers distinguish
(src/main.py lines 341-350): asyncio.TimeoutError, KeyboardInterrupt,
and any other Exception. -/
inductive Exc
  | timeoutErr
  | keyboardInterrupt
  | otherError
deriving DecidableEq, Repr

/-- Points of run_test's try-body (src/main.py lines 190-339) at which
an exception can surface, ordered by how many resources have been
acquired when it does: before `browser_controller` is assigned; after
the browser is assigned but before `coordinator` is assigned; during
agent initialization or initial navigation (both assigned); during the
main work (plan generation in plan-only mode, or the timeout-bounded
`execute_test_from_requirements` call); and during the summary/report
phase, which only runs in execution mode. -/
inductive RunPhase
  | beforeBrowser
  | browserStart
  | afterCoordinator
  | mainWork
  | reporting
deriving DecidableEq, Repr

/-- Outcome of run_test's try-body: a returned exit code or a raised
exception, together with which of the two cleanup-relevant resources
had been assigned when the body finished. -/
structure BodyResult where
  outcome : Except Exc Int
  browserAcquired : Bool
  coordinatorAcquired : Bool
deriving Repr

/-- run_test's try-body (src/main.py lines 190-339).  A run scenario is
the phase at which an exception surfaces (`none` when no exception is
raised), the class of that exception, and the final TestState status
when execution completes.  In plan-only mode the body returns 0 right
after displaying the generated plan (line 263), before the summary and
report phase; otherwise it returns 0 exactly when the final status is
completed and 1 otherwise (line 339).  External calls made inside the
finally block are modelled as non-raising. -/
def runBody (plan_only : Bool) (fault : Option (RunPhase × Exc))
    (execStatus : TestStatus) : BodyResult :=
  match fault with
  | some (.beforeBrowser, e) => ⟨.error e, false, false⟩
  | some (.browserStart, e) => ⟨.error e, true, false⟩
  | some (.afterCoordinator, e) => ⟨.error e, true, true⟩
  | some (.mainWork, e) => ⟨.error e, true, true⟩
  | some (.reporting, e) =>
    if plan_only then ⟨.ok 0, true, true⟩ else ⟨.error e, true, true⟩
  | none =>
    if plan_only then ⟨.ok 0, true, true⟩
    else ⟨.ok (if execStatus = .completed then 0 else 1), true, true⟩

/-- Exit codes produced by run_test's except handlers (src/main.py
lines 341-350): timeout 2, user interrupt 130, any other error 1. -/
def handlerCode : Exc → Int
  | .timeoutErr => 2
  | .keyboardInterrupt => 130
  | .otherError => 1

/-- Observable result of a run_test call: the exit code and how many
times each held resource was released on the way out. -/
structure RunResult where
  exitCode : Int
  browserReleases : Nat
  coordinatorReleases : Nat
deriving DecidableEq, Repr

/-- run_test (src/main.py lines 169-356): the try-body, the three
except handlers, and the finally block, which releases the coordinator
and stops the browser when (and only when) each was assigned. -/
def run_test (plan_only : Bool) (fault : Option (RunPhase × Exc))
    (execStatus : TestStatus) : RunResult :=
  let b := runBody plan_only fault execStatus
  { exitCode :=
      match b.outcome with
      | .ok code => code
      | .error e => handlerCode e,
    browserReleases := if b.browserAcquired then 1 else 0,
    coordinatorReleases := if b.coordinatorAcquired then 1 else 0 }

/-- A parsed scenario JSON object, abstracted to its list of top-level
keys: load_scenario's validation inspects only which fields are
present. -/
structure ScenarioRecord where
  keys : List String
deriving DecidableEq, Repr

/-- Failure modes of load_scenario (src/main.py lines 158-166); each is
reported as a console error followed by exit code 1, never an uncaught
crash. -/
inductive LoadError
  | fileNotFound
  | invalidJson
  | missingFields (fields : List String)
deriving DecidableEq, Repr

/-- Required fields checked by load_scenario (src/main.py line 152). -/
def requiredFields : List String := ["name", "requirements", "url"]

/-- load_scenario (src/main.py lines 145-166).  The input models the
file: `none` is a missing file, `some none` a file that is not valid
JSON, `some (some r)` a parsed record. -/
def load_scenario (input : Option (Option ScenarioRecord)) :
    Except LoadError ScenarioRecord :=
  match input with
  | none => .error .fileNotFound
  | some none => .error .invalidJson
  | some (some r) =>
    let missing := requiredFields.filter (fun f => !(r.keys.contains f))
    if missing.isEmpty then .ok r else .error (.missingFields missing)

/-- True when load_scenario accepted the record. -/
def loadOk : Except LoadError ScenarioRecord → Bool
  | .ok _ => true
  | .error _ => false

end Haindy

namespace Haindy

/-- C2: every GridCoordinate accepted by construction has offset_x,
offset_y and confidence within [0,1], and construction with any value
outside these ranges is rejected (returns none). -/
theorem gridCoordinate_bounds (cell : String)
    (ox oy c : ℚ) (r : Bool) :
    (∀ gc, mkGridCoordinate cell ox oy c r = some gc →
      0 ≤ gc.offset_x ∧ gc.offset_x ≤ 1 ∧
      0 ≤ gc.offset_y ∧ gc.offset_y ≤ 1 ∧
      0 ≤ gc.confidence ∧ gc.confidence ≤ 1) ∧
    (¬ (0 ≤ ox ∧ ox ≤ 1 ∧ 0 ≤ oy ∧ oy ≤ 1 ∧ 0 ≤ c ∧ c ≤ 1) →
      mkGridCoordinate cell ox oy c r = none) := by
  constructor
  · intro gc h
    unfold mkGridCoordinate at h
    split at h
    · rename_i hb
      cases h
      exact hb
    · exact absurd h (by simp)
  · intro hb
    unfold mkGridCoordinate
    split
    · rename_i hb2
      exact absurd hb2 hb
    · rfl

/-- Witness for C2 at a concrete accepted coordinate and a concrete
rejected one. -/
theorem gridCoordinate_bounds_witness :
    (0 ≤ (⟨"M23", 1/4, 3/4, 9/10, false⟩ : GridCoordinate).offset_x ∧
      (⟨"M23", 1/4, 3/4, 9/10, false⟩ : GridCoordinate).offset_x ≤ 1 ∧
      0 ≤ (⟨"M23", 1/4, 3/4, 9/10, false⟩ : GridCoordinate).offset_y ∧
      (⟨"M23", 1/4, 3/4, 9/10, false⟩ : GridCoordinate).offset_y ≤ 1 ∧
      0 ≤ (⟨"M23", 1/4, 3/4, 9/10, false⟩ : GridCoordinate).confidence ∧
      (⟨"M23", 1/4, 3/4, 9/10, false⟩ : GridCoordinate).confidence ≤ 1) ∧
    mkGridCoordinate "M23" 2 (3/4) (9/10) false = none := by
  constructor
  · exact (gridCoordinate_bounds "M23" (1/4) (3/4) (9/10) false).1
      ⟨"M23", 1/4, 3/4, 9/10, false⟩
      (if_pos (by norm_num))
  · exact (gridCoordinate_bounds "M23" 2 (3/4) (9/10) false).2 (by norm_num)

/-- C9: a GridCoordinate constructed with only a cell and a confidence
defaults to the cell center (offset_x = offset_y = 0.5) and to
refined = false. -/
theorem gridCoordinate_default_center (cell : String) (c : ℚ)
    (gc : GridCoordinate) (h : mkGridCoordinateDefault cell c = some gc) :
    gc.offset_x = 1/2 ∧ gc.offset_y = 1/2 ∧ gc.refined = false := by
  unfold mkGridCoordinateDefault mkGridCoordinate at h
  split at h
  · cases h
    exact ⟨rfl, rfl, rfl⟩
  · exact absurd h (by simp)

/-- Witness for C9 at cell "M23" with confidence 0.9. -/
theorem gridCoordinate_default_center_witness :
    mkGridCoordinateDefault "M23" (9/10) =
      some ⟨"M23", 1/2, 1/2, 9/10, false⟩ ∧
    (1/2 : ℚ) = 1/2 ∧ (1/2 : ℚ) = 1/2 ∧ false = false := by
  have h : mkGridCoordinateDefault "M23" (9/10) =
      some ⟨"M23", 1/2, 1/2, 9/10, false⟩ := if_pos (by norm_num)
  refine ⟨h, ?_⟩
  exact gridCoordinate_default_center "M23" (9/10)
    ⟨"M23", 1/2, 1/2, 9/10, false⟩ h

/-- C1: at every point of a run (after any sequence of terminal-outcome
recordings by the coordinator, starting from the initial TestState),
completed_steps, failed_steps and skipped_steps are pairwise disjoint,
and every step that has reached a terminal state appears in exactly one
of the terminal categories (blocked steps are recorded under skipped by
the blocking cascade). -/
theorem testState_terminal_partition (plan : TestPlan)
    (events : List (Nat × StepOutcome)) :
    StepSetsDisjoint (runOutcomes (initialTestState plan) events) ∧
    ∀ id, isTerminal (runOutcomes (initialTestState plan) events) id →
      InExactlyOne (runOutcomes (initialTestState plan) events) id := by
  have hd := runOutcomes_disjoint events (initialTestState plan)
    (initial_disjoint plan)
  exact ⟨hd, fun id ht => disjoint_terminal_exactly_one _ hd id ht⟩

/-- Witness for C1 on a concrete run in which step 1 completes, step 2
fails, step 3 is skipped, and a duplicate late failure report for step 1
arrives. -/
theorem testState_terminal_partition_witness :
    isTerminal
      (runOutcomes (initialTestState ⟨1, "login", "login flow",
        "user can log in", [], none, []⟩)
        [(1, .completed), (2, .failed), (3, .skipped), (1, .failed)]) 1 ∧
    StepSetsDisjoint
      (runOutcomes (initialTestState ⟨1, "login", "login flow",
        "user can log in", [], none, []⟩)
        [(1, .completed), (2, .failed), (3, .skipped), (1, .failed)]) ∧
    InExactlyOne
      (runOutcomes (initialTestState ⟨1, "login", "login flow",
        "user can log in", [], none, []⟩)
        [(1, .completed), (2, .failed), (3, .skipped), (1, .failed)]) 1 := by
  have h := testState_terminal_partition
    ⟨1, "login", "login flow", "user can log in", [], none, []⟩
    [(1, .completed), (2, .failed), (3, .skipped), (1, .failed)]
  exact ⟨by decide, h.1, h.2 1 (by decide)⟩

/-- C3: when the initial oracle confidence is below the threshold and
the result is not already marked refined, locate issues exactly one
refinement request, the returned coordinate has refined = true
regardless of the refinement's outcome, and no locate call ever issues
more than one refinement request. -/
theorem locator_single_refinement (c : GridCoordinate)
    (refineOracle : GridCoordinate → GridCoordinate) (threshold : ℚ)
    (hconf : c.confidence < threshold) (href : c.refined = false) :
    (locate (.found c) refineOracle threshold).2 = 1 ∧
    (locate (.found c) refineOracle threshold).1 =
      .ok { refineOracle c with refined := true } ∧
    (∀ (reply : OracleReply), (locate reply refineOracle threshold).2 ≤ 1) := by
  have hcond : c.confidence < threshold ∧ c.refined = false := ⟨hconf, href⟩
  refine ⟨?_, ?_, ?_⟩
  · show (if c.confidence < threshold ∧ c.refined = false then
        ((.ok { refineOracle c with refined := true } :
          Except LocatorFailure GridCoordinate), 1)
      else ((.ok c : Except LocatorFailure GridCoordinate), 0)).2 = 1
    rw [if_pos hcond]
  · show (if c.confidence < threshold ∧ c.refined = false then
        ((.ok { refineOracle c with refined := true } :
          Except LocatorFailure GridCoordinate), 1)
      else ((.ok c : Except LocatorFailure GridCoordinate), 0)).1 =
        .ok { refineOracle c with refined := true }
    rw [if_pos hcond]
  · intro reply
    match reply with
    | .notFound => exact Nat.zero_le 1
    | .found d =>
      show (if d.confidence < threshold ∧ d.refined = false then
          ((.ok { refineOracle d with refined := true } :
            Except LocatorFailure GridCoordinate), 1)
        else ((.ok d : Except LocatorFailure GridCoordinate), 0)).2 ≤ 1
      split
      · exact Nat.le_refl 1
      · exact Nat.zero_le 1

/-- Witness for C3: initial confidence 0.5 against the default
threshold 0.8, with a refinement that lowers confidence to 0.3 — one
refinement request, and refined = true in the final result anyway. -/
theorem locator_single_refinement_witness :
    (locate (.found ⟨"M23", 1/2, 1/2, 1/2, false⟩)
      (fun c => { c with confidence := 3/10 })
      default_confidence_threshold).2 = 1 ∧
    (locate (.found ⟨"M23", 1/2, 1/2, 1/2, false⟩)
      (fun c => { c with confidence := 3/10 })
      default_confidence_threshold).1 =
      .ok ⟨"M23", 1/2, 1/2, 3/10, true⟩ ∧
    (∀ (reply : OracleReply),
      (locate reply (fun c => { c with confidence := 3/10 })
        default_confidence_threshold).2 ≤ 1) :=
  locator_single_refinement ⟨"M23", 1/2, 1/2, 1/2, false⟩
    (fun c => { c with confidence := 3/10 })
    default_confidence_threshold (by norm_num [default_confidence_threshold])
    rfl

/-- C7: a ScrollState created without an explicit maximum, and
ScrollParameters created without an explicit maximum, both default to
max_attempts = 15. -/
theorem scroll_max_attempts_default (target : String) :
    (mkScrollState target).max_attempts = 15 ∧
    mkScrollParameters.max_attempts = 15 :=
  ⟨rfl, rfl⟩

/-- C6: a scroll-to-element request performs at most max_attempts
scroll actions, and the attempts value reported in the ScrollResult
equals the number of scroll actions actually taken, i.e. the length of
the recorded scroll history. -/
theorem scroll_attempts_bounded (cfg : ScrollConfig)
    (oracle : Nat → VisibilityResult) (params : ScrollParameters)
    (target : String) :
    ∃ n h,
      (scroll_to_element cfg oracle params target).attempts = some n ∧
      (scroll_to_element cfg oracle params target).scroll_history = some h ∧
      n = h.length ∧ n ≤ params.max_attempts := by
  obtain ⟨n, h, e1, e2, e3, e4⟩ := scrollLoop_attempts_spec cfg params oracle
    params.max_attempts none (mkScrollState target) rfl
  exact ⟨n, h, e1, e2, e3, by simpa [mkScrollState] using e4⟩

/-- C4: when test execution exceeds the run-level wall-clock timeout
(asyncio.TimeoutError surfaces from the timeout-bounded execution
call), run_test reports exit code 2 — the timeout failure — regardless
of whatever partial status the run had reached, and the browser session
is released before returning. -/
theorem run_test_timeout_aborts (st : TestStatus) :
    (run_test false (some (.mainWork, .timeoutErr)) st).exitCode = 2 ∧
    (run_test false (some (.mainWork, .timeoutErr)) st).browserReleases = 1 ∧
    (run_test false (some (.mainWork, .timeoutErr)) st).coordinatorReleases
      = 1 :=
  ⟨rfl, rfl, rfl⟩

/-- C5: on every exit path of run_test — normal completion, failure,
timeout, or user interrupt, in either mode — the browser session and
the coordinator are each released exactly once whenever they were
acquired, and never more than once in any case. -/
theorem run_test_release_once (plan_only : Bool)
    (fault : Option (RunPhase × Exc)) (st : TestStatus) :
    ((runBody plan_only fault st).browserAcquired = true →
      (run_test plan_only fault st).browserReleases = 1) ∧
    ((runBody plan_only fault st).coordinatorAcquired = true →
      (run_test plan_only fault st).coordinatorReleases = 1) ∧
    (run_test plan_only fault st).browserReleases ≤ 1 ∧
    (run_test plan_only fault st).coordinatorReleases ≤ 1 := by
  refine ⟨fun h => ?_, fun h => ?_, ?_, ?_⟩
  · simp [run_test, h]
  · simp [run_test, h]
  · by_cases h : (runBody plan_only fault st).browserAcquired <;>
      simp [run_test, h]
  · by_cases h : (runBody plan_only fault st).coordinatorAcquired <;>
      simp [run_test, h]

/-- Witness for C5 on a concrete exit path (user interrupt during
execution): both resources were acquired and each is released exactly
once. -/
theorem run_test_release_once_witness :
    (runBody false (some (.mainWork, .keyboardInterrupt))
      .in_progress).browserAcquired = true ∧
    (run_test false (some (.mainWork, .keyboardInterrupt))
      .in_progress).browserReleases = 1 ∧
    (runBody false (some (.mainWork, .keyboardInterrupt))
      .in_progress).coordinatorAcquired = true ∧
    (run_test false (some (.mainWork, .keyboardInterrupt))
      .in_progress).coordinatorReleases = 1 := by
  have h := run_test_release_once false (some (.mainWork, .keyboardInterrupt))
    .in_progress
  exact ⟨rfl, h.1 rfl, rfl, h.2.1 rfl⟩

/-- C10 as stated is false: in plan-only mode run_test returns exit
code 0 after only generating and displaying the plan, although no
execution finished with final status completed (the execution-status
input here is failed, and no execution takes place at all). -/
theorem run_test_exit_codes_counterexample :
    (run_test true none .failed).exitCode = 0 ∧
    (TestStatus.failed ≠ TestStatus.completed) :=
  ⟨rfl, by decide⟩

/-- C10 amended: when plan_only is false, run_test returns 2 on
run-level timeout, 130 on user interrupt, 1 on any other unexpected
error, and otherwise 0 exactly when the final status is completed and 1
for any other status; when plan_only is true, run_test returns 0
whenever the body completes (the reporting phase is never reached), and
the same handler codes on earlier faults. -/
theorem run_test_exit_codes (fault : Option (RunPhase × Exc))
    (st : TestStatus) :
    (run_test false fault st).exitCode =
      (match fault with
       | some (_, .timeoutErr) => 2
       | some (_, .keyboardInterrupt) => 130
       | some (_, .otherError) => 1
       | none => if st = .completed then 0 else 1) ∧
    (run_test true fault st).exitCode =
      (match fault with
       | some (.reporting, _) => 0
       | some (_, .timeoutErr) => 2
       | some (_, .keyboardInterrupt) => 130
       | some (_, .otherError) => 1
       | none => 0) := by
  constructor
  · rcases fault with _ | ⟨p, e⟩
    · by_cases h : st = .completed <;> simp [run_test, runBody, h]
    · cases p <;> cases e <;> rfl
  · rcases fault with _ | ⟨p, e⟩
    · rfl
    · cases p <;> cases e <;> rfl

/-- C8 as stated is false: load_scenario accepts a record that has
name, requirements and url but no steps list at all — the ordered list
of steps is not among the fields it validates. -/
theorem load_scenario_counterexample :
    load_scenario (some (some ⟨["name", "requirements", "url"]⟩)) =
      .ok ⟨["name", "requirements", "url"]⟩ ∧
    ¬ ("steps" ∈ (["name", "requirements", "url"] : List String)) := by
  constructor
  · rfl
  · decide

/-- C8 amended: load_scenario requires exactly the name, free-text
requirements and target entry URL fields — the steps list is not
validated at load time — and it rejects with an error result, not a
crash, any record missing one of those three fields, any file that is
not valid JSON, and any missing file. -/
theorem load_scenario_required_fields (r : ScenarioRecord) :
    loadOk (load_scenario (some (some r))) =
      (r.keys.contains "name" && r.keys.contains "requirements" &&
        r.keys.contains "url") ∧
    load_scenario (some none) = .error .invalidJson ∧
    load_scenario none = .error .fileNotFound := by
  refine ⟨?_, rfl, rfl⟩
  unfold load_scenario requiredFields
  cases h1 : r.keys.contains "name" <;>
    cases h2 : r.keys.contains "requirements" <;>
      cases h3 : r.keys.contains "url" <;>
        simp at h1 h2 h3 <;>
          simp [List.filter, h1, h2, h3, loadOk]

end Haindy
